import Mathlib

/-!
# Shallow embedding of the `validado100` checkout / PIX payment glue layer

This file embeds the three source files of the repository

  * `src/lib/blackcat.ts` — payment-gateway client helpers
    (`mapBlackCatStatus`, `toCents`, `fromCents`, payload shapes),
  * `src/app/api/webhook/blackcat/route.ts` — the webhook receiver
    (`extractTrackingParamsFromMetadata`, `getTrackingParams`, `POST`),
  * the unnamed source file containing the checkout orchestrator
    (`generateOrderId`, `POST`) and the status endpoint (`GET`),

as pure Lean functions, and proves the frozen claims about them.

Modelling conventions:

  * JavaScript values flowing through untyped JSON are modelled with a small
    `Json` inductive; JS truthiness (`x || y` fallbacks) is modelled
    explicitly (`Json.truthy`, `jsOrS`, `jsOrNull`, `jsOrI`).
  * `JSON.parse` is the host runtime, not repository code: it enters as an
    explicit parameter `parse : String → Option Json`, `none` modelling a
    parse failure (a thrown exception caught by the surrounding `try`).
  * JS numbers: currency amounts are modelled as exact rationals (`Rat`) at
    the decimal side and integers (`Int`) at the minor-unit side; epoch
    timestamps as `Nat`.  `Number.prototype.toString(36)` applied to
    `Math.random()` is a floating-point rendering; the rendered string is the
    model boundary and enters `generateOrderId` as an argument.
  * Outbound HTTP calls (gateway create-sale, attribution submit) are
    effects: each handler returns, alongside its HTTP response, the request
    payloads it sent (`Option …`, `none` = the call was never issued), and
    takes the remote outcome as an oracle argument.
  * `src/lib/server-utm-store.ts` and `src/lib/utmfy.ts` are imported by the
    handlers but are not part of the given source tree; they are modelled
    from the spec (see `saveUtmParams`, `getUtmParams`, `deleteUtmParams`,
    and the `fmtDate` oracle standing for `formatUtmfyDate`).
-/

/-! ## A small JSON value model -/

/-- JSON values as delivered by `JSON.parse`.  Numbers are modelled as
integers (no claim depends on fractional JSON numbers inside parsed
metadata). -/
inductive Json where
  | null : Json
  | bool (b : Bool) : Json
  | num (n : Int) : Json
  | str (s : String) : Json
  | arr (elems : List Json) : Json
  | obj (fields : List (String × Json)) : Json

/-- JS truthiness of a JSON value: `null`, `false`, `0` and `""` are falsy,
everything else (including `[]` and `{}`) is truthy. -/
def Json.truthy : Json → Bool
  | .null => false
  | .bool b => b
  | .num n => n != 0
  | .str s => s != ""
  | .arr _ => true
  | .obj _ => true

/-- JS property access `v.k` on a parsed JSON value: returns the field of an
object, and `undefined` (modelled `none`) on any non-object. (Access on
`null` throws; callers below only access fields of non-null values, or model
the thrown-and-caught path explicitly.) -/
def Json.getField : Json → String → Option Json
  | .obj fields, k => (fields.find? (fun kv => kv.fst == k)).map (·.snd)
  | _, _ => none

/-- JS `x || null` over a possibly-`undefined` value: a truthy value passes
through, everything falsy collapses to `null` (`none`). -/
def jsOrNull (v : Option Json) : Option Json :=
  match v with
  | some j => if j.truthy then some j else none
  | none => none

/-- JS `x || d` over a possibly-`undefined` string: a non-empty string passes
through, `undefined` and `""` fall back to `d`. -/
def jsOrS (v : Option String) (d : String) : String :=
  match v with
  | some s => if s = "" then d else s
  | none => d

/-- JS `x || d` over a possibly-`undefined` number: a nonzero number passes
through, `undefined` and `0` fall back to `d`. -/
def jsOrI (v : Option Int) (d : Int) : Int :=
  match v with
  | some n => if n = 0 then d else n
  | none => d

/-- `String.replace(/\D/g, "")`: keep only ASCII decimal digits. -/
def digitsOnly (s : String) : String :=
  String.mk (s.data.filter Char.isDigit)

/-- `String.prototype.toUpperCase` (ASCII, as used by the repository's
base-36 strings and status codes), modelled character-wise on the string's
character list. -/
def upperStr (s : String) : String :=
  String.mk (s.data.map Char.toUpper)

/-- `String.prototype.substring(a, b)` on an ASCII string. -/
def jsSubstring (s : String) (a b : Nat) : String :=
  String.mk ((s.data.drop a).take (b - a))

/-! ## `src/lib/blackcat.ts` — unit conversion and status mapping -/

/-- `toCents(value) = Math.round(value * 100)` from `src/lib/blackcat.ts`.
`Math.round(x)` is `⌊x + 1/2⌋` (round half towards +∞); the decimal amount
is modelled as an exact rational. -/
def toCents (value : ℚ) : ℤ := ⌊value * 100 + 1 / 2⌋

/-- `fromCents(value) = value / 100` from `src/lib/blackcat.ts`. -/
def fromCents (value : ℚ) : ℚ := value / 100

/-- `mapBlackCatStatus` from `src/lib/blackcat.ts`: a `switch` on
`status.toUpperCase()` with default `"pending"`. -/
def mapBlackCatStatus (status : String) : String :=
  let u := upperStr status
  if u = "PENDING" then "pending"
  else if u = "PAID" then "paid"
  else if u = "CANCELLED" then "cancelled"
  else if u = "REFUNDED" then "refunded"
  else "pending"

/-! ## Order identifier generation (checkout source file) -/

/-- Digit character of a base-36 digit, lowercase, as produced by
`Number.prototype.toString(36)`. -/
def base36Digit (d : Nat) : Char :=
  if d < 10 then Char.ofNat (48 + d) else Char.ofNat (87 + d)

/-- Base-36 digit string of a natural number, most significant digit first
(structural fuel recursion; `fuel = n + 1` always suffices since the argument
shrinks by a factor of 36). -/
def natToBase36Go (fuel : Nat) (n : Nat) (acc : List Char) : List Char :=
  match fuel with
  | 0 => acc
  | fuel + 1 =>
    if n < 36 then base36Digit n :: acc
    else natToBase36Go fuel (n / 36) (base36Digit (n % 36) :: acc)

/-- `n.toString(36)` for a nonnegative integer `n` (the shape
`Date.now().toString(36)` takes: epoch milliseconds are integral and exact
in a JS number). -/
def natToBase36 (n : Nat) : String :=
  String.mk (natToBase36Go (n + 1) n [])

/-- `generateOrderId` from the checkout source file:

```ts
const timestamp = Date.now().toString(36).toUpperCase()
const random = Math.random().toString(36).substring(2, 6).toUpperCase()
return `PED-${timestamp}-${random}`
```

`timestamp` is the epoch-millisecond value; `randomStr` is the string
rendering `Math.random().toString(36)` (e.g. `"0.k2j3h4…"`; the rendering
itself is floating-point behaviour of the host and is the model boundary). -/
def generateOrderId (timestamp : Nat) (randomStr : String) : String :=
  "PED-" ++ upperStr (natToBase36 timestamp) ++ "-" ++ upperStr (jsSubstring randomStr 2 6)

/-! ## `src/lib/utmfy.ts` payload shapes and `src/lib/server-utm-store.ts`

These two modules are imported by both handlers but their source file is not
part of the given tree; their data shapes and operation contracts are
modelled from the spec. -/

/-- The seven-field tracking-parameter block (`UtmfyTrackingParameters`):
`src`, `sck` and five UTM fields, each a JSON value or `null`.  Modelled from
the spec: "seven optional string fields (traffic-source id, sub-click id,
five UTM fields), all nullable". -/
structure UtmfyTrackingParameters where
  src : Option Json
  sck : Option Json
  utm_source : Option Json
  utm_campaign : Option Json
  utm_medium : Option Json
  utm_content : Option Json
  utm_term : Option Json


/-- The all-`null` tracking block (`defaultParams` in the webhook source). -/
def defaultTrackingParams : UtmfyTrackingParameters :=
  { src := none, sck := none, utm_source := none, utm_campaign := none
    utm_medium := none, utm_content := none, utm_term := none }

/-- Read the seven tracking fields off a (truthy, hence non-null) JSON value
with the `field || null` normalisation the sources apply at every read site. -/
def readTrackingFields (j : Json) : UtmfyTrackingParameters :=
  { src := jsOrNull (j.getField "src")
    sck := jsOrNull (j.getField "sck")
    utm_source := jsOrNull (j.getField "utm_source")
    utm_campaign := jsOrNull (j.getField "utm_campaign")
    utm_medium := jsOrNull (j.getField "utm_medium")
    utm_content := jsOrNull (j.getField "utm_content")
    utm_term := jsOrNull (j.getField "utm_term") }

/-- The `field || null` normalisation applied to an already-stored record
(the webhook re-normalises whatever `getUtmParams` returns). -/
def normalizeTracking (p : UtmfyTrackingParameters) : UtmfyTrackingParameters :=
  { src := jsOrNull p.src
    sck := jsOrNull p.sck
    utm_source := jsOrNull p.utm_source
    utm_campaign := jsOrNull p.utm_campaign
    utm_medium := jsOrNull p.utm_medium
    utm_content := jsOrNull p.utm_content
    utm_term := jsOrNull p.utm_term }

/-- The Correlation Store state.  Modelled from the spec:
`src/lib/server-utm-store.ts` is not in the given source tree; §4.1 contracts
it as an in-process key-value association from order id to a tracking record,
with `save` storing/overwriting, `get` returning the record or absent, and
`delete` removing (no-op if absent).  Modelled as an association list. -/
def UtmStore : Type := List (String × UtmfyTrackingParameters)

/-- Modelled from the spec: `saveUtmParams(orderId, params)` stores or
overwrites the record under `orderId` (§4.1). -/
def saveUtmParams (orderId : String) (params : UtmfyTrackingParameters)
    (store : UtmStore) : UtmStore :=
  (orderId, params) :: store.filter (fun kv => kv.fst ≠ orderId)

/-- Modelled from the spec: `getUtmParams(orderId)` returns the stored
record or absent (§4.1). -/
def getUtmParams (orderId : String) (store : UtmStore) : Option UtmfyTrackingParameters :=
  (store.find? (fun kv => kv.fst == orderId)).map (·.snd)

/-- Modelled from the spec: `deleteUtmParams(orderId)` removes the record,
a no-op when absent (§4.1). -/
def deleteUtmParams (orderId : String) (store : UtmStore) : UtmStore :=
  store.filter (fun kv => kv.fst ≠ orderId)

/-- `UtmfyOrderRequest.customer` snapshot. -/
structure UtmfyCustomer where
  name : String
  email : String
  phone : Option String
  document : Option String
  country : String


/-- `UtmfyOrderRequest.products` entry. -/
structure UtmfyProduct where
  id : String
  name : String
  planId : Option String
  planName : Option String
  quantity : Int
  priceInCents : Int


/-- `UtmfyOrderRequest.commission` block. -/
structure UtmfyCommission where
  totalPriceInCents : Int
  gatewayFeeInCents : Int
  userCommissionInCents : Int
  currency : String


/-- The attribution event payload (`UtmfyOrderRequest`), as built by the
checkout orchestrator and the webhook receiver. -/
structure UtmfyOrderRequest where
  orderId : String
  platform : String
  paymentMethod : String
  status : String
  createdAt : String
  approvedDate : Option String
  refundedAt : Option String
  customer : UtmfyCustomer
  products : List UtmfyProduct
  trackingParameters : UtmfyTrackingParameters
  commission : UtmfyCommission


/-! ## `src/app/api/webhook/blackcat/route.ts` — the webhook receiver -/

/-- The optional customer snapshot of a webhook envelope
(`BlackCatWebhookPayload.customer`); fields may be absent at runtime. -/
structure WebhookCustomer where
  name : Option String
  email : Option String

/-- The inbound gateway event envelope (`BlackCatWebhookPayload` in
`src/lib/blackcat.ts`), restricted to the fields the webhook handler
destructures.  `event` is required by the interface (an envelope carries an
event type); the remaining fields are optional at runtime. -/
structure BlackCatWebhookPayload where
  event : String
  transactionId : Option String
  externalReference : Option String
  amount : Option Int
  customer : Option WebhookCustomer
  paidAt : Option String
  fees : Option Int
  netAmount : Option Int
  metadata : Option String

/-- `extractTrackingParamsFromMetadata` from the webhook source: falsy
metadata yields the all-null default block; otherwise `JSON.parse` it (a
parse throw is caught and yields the default; `JSON.parse` returning `null`
makes the subsequent `parsed.trackingParams` access throw, also caught);
then use the `trackingParams` field when truthy, else the parsed value
itself, and read the seven fields with `|| null` normalisation. -/
def extractTrackingParamsFromMetadata (parse : String → Option Json)
    (metadata : Option String) : UtmfyTrackingParameters :=
  match metadata with
  | none => defaultTrackingParams
  | some s =>
    if s = "" then defaultTrackingParams
    else
      match parse s with
      | none => defaultTrackingParams
      | some parsed =>
        match parsed with
        | Json.null => defaultTrackingParams
        | _ =>
          let tp :=
            match parsed.getField "trackingParams" with
            | some v => if v.truthy then v else parsed
            | none => parsed
          readTrackingFields tp

/-- `getTrackingParams` from the webhook source: the Correlation Store is
the primary source; on a miss, fall back to the metadata string. -/
def getTrackingParams (parse : String → Option Json) (orderId : String)
    (metadata : Option String) (store : UtmStore) : UtmfyTrackingParameters :=
  match getUtmParams orderId store with
  | some serverParams => normalizeTracking serverParams
  | none => extractTrackingParamsFromMetadata parse metadata

/-- A JSON response body of the webhook endpoint: either
`{ success: true, message }` or `{ error }`. -/
inductive WebhookBody where
  | ok (message : String)
  | err (error : String)

/-- Observable outcome of one webhook `POST` invocation: HTTP status and
body, the attribution event submitted to `sendOrderToUtmfy` (`none` when the
client was never invoked), and the Correlation Store state afterwards. -/
structure WebhookResult where
  status : Nat
  body : WebhookBody
  utmfyEvent : Option UtmfyOrderRequest
  storeAfter : UtmStore

/-- The webhook `POST` handler from `src/app/api/webhook/blackcat/route.ts`.

Oracles: `parse` models `JSON.parse`; `fmtDate` models `formatUtmfyDate`
(modelled from the spec: `src/lib/utmfy.ts` is not in the source tree, §4.5
contracts it as a total timestamp-to-string formatter); `now` is the current
time (`new Date()`); `payload` is the parsed request body (`none` = the
body failed to parse, i.e. `request.json()` threw); `utmfyThrows` says
whether the awaited `sendOrderToUtmfy` call throws/rejects. -/
def webhookPOST (parse : String → Option Json) (fmtDate : String → String)
    (now : String) (payload : Option BlackCatWebhookPayload)
    (utmfyThrows : Bool) (store : UtmStore) : WebhookResult :=
  match payload with
  | none => ⟨500, .err "Erro ao processar webhook", none, store⟩
  | some p =>
    let orderId := jsOrS p.externalReference (jsOrS p.transactionId "")
    let trackingParams := getTrackingParams parse orderId p.metadata store
    if p.event = "transaction.created" then
      ⟨200, .ok "Evento recebido", none, store⟩
    else if p.event = "transaction.paid" then
      let utmfyOrder : UtmfyOrderRequest :=
        { orderId := orderId
          platform := "papelaria-site"
          paymentMethod := "pix"
          status := "paid"
          createdAt := jsOrS (some (fmtDate now)) ""
          approvedDate := some (jsOrS (some (fmtDate (jsOrS p.paidAt now))) "")
          refundedAt := none
          customer :=
            { name := jsOrS (p.customer.bind (·.name)) "Cliente"
              email := jsOrS (p.customer.bind (·.email)) ""
              phone := none
              document := none
              country := "BR" }
          products :=
            [{ id := "order"
               name := "Pedido " ++ orderId
               planId := none
               planName := none
               quantity := 1
               priceInCents := jsOrI p.amount 0 }]
          trackingParameters := trackingParams
          commission :=
            { totalPriceInCents := jsOrI p.amount 0
              gatewayFeeInCents := jsOrI p.fees 0
              userCommissionInCents := jsOrI p.netAmount (jsOrI p.amount 0)
              currency := "BRL" } }
      if utmfyThrows then
        -- the `catch` swallows the throw; `deleteUtmParams` is skipped
        ⟨200, .ok "Pagamento processado", some utmfyOrder, store⟩
      else
        ⟨200, .ok "Pagamento processado", some utmfyOrder, deleteUtmParams orderId store⟩
    else if p.event = "transaction.failed" then
      let utmfyOrder : UtmfyOrderRequest :=
        { orderId := orderId
          platform := "papelaria-site"
          paymentMethod := "pix"
          status := "refused"
          createdAt := jsOrS (some (fmtDate now)) ""
          approvedDate := none
          refundedAt := none
          customer :=
            { name := jsOrS (p.customer.bind (·.name)) "Cliente"
              email := jsOrS (p.customer.bind (·.email)) ""
              phone := none
              document := none
              country := "BR" }
          products :=
            [{ id := "order"
               name := "Pedido " ++ orderId
               planId := none
               planName := none
               quantity := 1
               priceInCents := jsOrI p.amount 0 }]
          trackingParameters := trackingParams
          commission :=
            { totalPriceInCents := jsOrI p.amount 0
              gatewayFeeInCents := 0
              userCommissionInCents := 0
              currency := "BRL" } }
      if utmfyThrows then
        ⟨200, .ok "Falha processada", some utmfyOrder, store⟩
      else
        ⟨200, .ok "Falha processada", some utmfyOrder, deleteUtmParams orderId store⟩
    else if p.event.startsWith "withdrawal." then
      ⟨200, .ok "Evento de saque recebido", none, store⟩
    else
      ⟨200, .ok "Evento recebido", none, store⟩

/-! ## The checkout orchestrator (unnamed source file, `POST`) -/

/-- `x || null` for a plain JS string: `""` collapses to `null`. -/
def strOrNone (s : String) : Option String :=
  if s = "" then none else some s

/-- Optional chaining plus field access, `v?.k`, on an optional JSON value:
`undefined` and `null` yield `undefined`, otherwise the field is read. -/
def optChainField : Option Json → String → Option Json
  | some .null, _ => none
  | some j, k => j.getField k
  | none, _ => none

/-- The seven tracking fields read through optional chaining
(`trackingParams?.src || null`, …), as the checkout's attribution event
builds them. -/
def readTrackingFieldsOpt (v : Option Json) : UtmfyTrackingParameters :=
  { src := jsOrNull (optChainField v "src")
    sck := jsOrNull (optChainField v "sck")
    utm_source := jsOrNull (optChainField v "utm_source")
    utm_campaign := jsOrNull (optChainField v "utm_campaign")
    utm_medium := jsOrNull (optChainField v "utm_medium")
    utm_content := jsOrNull (optChainField v "utm_content")
    utm_term := jsOrNull (optChainField v "utm_term") }

/-- Checkout request `customer` block.  The handler only ever distinguishes
absent from present-and-empty through truthiness (`!customer.name` …), so an
absent field is encoded as `""` — observationally equivalent for every path
of the handler. -/
structure CheckoutCustomer where
  name : String
  email : String
  cpf : String
  phone : String

/-- Checkout request `address` block, same `""`-for-absent encoding (field
values flow unchecked into the gateway payload; only the `address` block
itself being absent changes control flow, and that case is kept as `Option`
at the use site). -/
structure CheckoutAddress where
  street : String
  number : String
  complement : String
  neighborhood : String
  city : String
  state : String
  cep : String

/-- Checkout request line item (`{ id?, name, price, quantity }`);
`id` uses the `""`-for-absent encoding (`item.id || "product"`). -/
structure CheckoutItem where
  id : String
  name : String
  price : ℚ
  quantity : Int

/-- Checkout request `shipping` block. -/
structure CheckoutShipping where
  name : String
  price : ℚ

/-- The parsed checkout request body.  `items` encodes an absent list as
`[]` (`!items || items.length === 0` treats them alike); `total` encodes an
absent total as `0` (`!total || total <= 0` treats them alike);
`trackingParams` stays a raw JSON value (its truthiness and fields are
inspected). -/
structure CheckoutBody where
  customer : CheckoutCustomer
  address : Option CheckoutAddress
  items : List CheckoutItem
  total : ℚ
  shipping : Option CheckoutShipping
  trackingParams : Option Json

/-- `BlackCatDocument` of `src/lib/blackcat.ts`. -/
structure BlackCatDocument where
  number : String
  type : String

/-- `BlackCatCustomer` of `src/lib/blackcat.ts`. -/
structure BlackCatCustomer where
  name : String
  email : String
  phone : String
  document : BlackCatDocument

/-- `BlackCatItem` of `src/lib/blackcat.ts`. -/
structure BlackCatItem where
  title : String
  unitPrice : Int
  quantity : Int
  tangible : Bool

/-- `BlackCatShipping` of `src/lib/blackcat.ts`. -/
structure BlackCatShipping where
  name : String
  street : String
  number : String
  complement : String
  neighborhood : String
  city : String
  state : String
  zipCode : String

/-- `BlackCatCreateSaleRequest` of `src/lib/blackcat.ts` as the checkout
handler builds it.  The `metadata` string is `JSON.stringify({orderId,
trackingParams})`; stringification being host behaviour, the two components
are carried structurally. -/
structure BlackCatCreateSaleRequest where
  amount : Int
  currency : String
  paymentMethod : String
  items : List BlackCatItem
  customer : BlackCatCustomer
  shipping : BlackCatShipping
  pixExpiresInDays : Int
  postbackUrl : String
  externalRef : String
  metadataOrderId : String
  metadataTrackingParams : Option Json

/-- The fields of a successful gateway create-sale response that the
checkout handler reads (`BlackCatSaleResponse.data`): `fees`/`netAmount`
are read through `|| …` fallbacks, the rest verbatim. -/
structure BlackCatSaleData where
  transactionId : String
  fees : Option Int
  netAmount : Option Int
  qrCode : String
  qrCodeBase64 : String
  copyPaste : String
  expiresAt : String

/-- `BlackCatSaleResponse` of `src/lib/blackcat.ts`: the create-sale
client's uniform `{success, data?, message?}` result (the client catches
transport errors itself and never throws). -/
structure BlackCatSaleResponse where
  success : Bool
  data : Option BlackCatSaleData
  message : Option String

/-- A JSON response body of the checkout endpoint: `{ error }` or
`{ success: true, orderId, transactionId, pix: {…} }`. -/
inductive CheckoutRespBody where
  | err (error : String)
  | ok (orderId : String) (transactionId : String)
      (pixQrcode : String) (pixQrCodeBase64 : String) (pixExpiresAt : String)

/-- Observable outcome of one checkout `POST` invocation: HTTP status and
body, the gateway create-sale request (`none` = never sent), the attribution
event (`none` = `sendOrderToUtmfy` never invoked), and the Correlation Store
afterwards. -/
structure CheckoutResult where
  status : Nat
  body : CheckoutRespBody
  gatewayRequest : Option BlackCatCreateSaleRequest
  utmfyEvent : Option UtmfyOrderRequest
  storeAfter : UtmStore

/-- The checkout `POST` handler from the unnamed source file.

Oracles: `fmtDate`/`now` as in `webhookPOST`; `appUrl` is
`process.env.NEXT_PUBLIC_APP_URL`; `orderId` is the freshly generated
`generateOrderId()` value; `gatewayResp` is what `createBlackCatSale` would
return for the built request; `utmfyThrows` as in `webhookPOST`; `body` is
the parsed request body (`none` = `request.json()` threw, landing in the
top-level `catch`).  An absent `address` makes the `address.street` access
throw, likewise caught at the top level — after the store write, before the
gateway call. -/
def checkoutPOST (fmtDate : String → String) (now : String)
    (appUrl : Option String) (body : Option CheckoutBody) (orderId : String)
    (gatewayResp : BlackCatSaleResponse) (utmfyThrows : Bool)
    (store : UtmStore) : CheckoutResult :=
  match body with
  | none => ⟨500, .err "Erro interno ao processar pagamento", none, none, store⟩
  | some b =>
    if b.customer.name = "" ∨ b.customer.email = "" ∨ b.customer.cpf = "" ∨
        b.customer.phone = "" then
      ⟨400, .err "Dados do cliente incompletos", none, none, store⟩
    else if b.items.isEmpty then
      ⟨400, .err "Nenhum item no pedido", none, none, store⟩
    else if b.total ≤ 0 then
      ⟨400, .err "Valor total inválido", none, none, store⟩
    else
      let store1 :=
        match b.trackingParams with
        | some j =>
          if j.truthy then saveUtmParams orderId (readTrackingFields j) store
          else store
        | none => store
      let amountInCents := toCents b.total
      match b.address with
      | none =>
        -- `address.street` throws on an absent address; the top-level catch
        -- answers 500 before any outbound call is made
        ⟨500, .err "Erro interno ao processar pagamento", none, none, store1⟩
      | some addr =>
        let blackCatItems : List BlackCatItem :=
          b.items.map (fun it =>
            { title := it.name, unitPrice := toCents it.price
              quantity := it.quantity, tangible := true }) ++
          (match b.shipping with
           | some sh =>
             if sh.price > 0 then
               [{ title := "Frete - " ++ sh.name, unitPrice := toCents sh.price
                  quantity := 1, tangible := false }]
             else []
           | none => [])
        let req : BlackCatCreateSaleRequest :=
          { amount := amountInCents
            currency := "BRL"
            paymentMethod := "pix"
            items := blackCatItems
            customer :=
              { name := b.customer.name
                email := b.customer.email
                phone := digitsOnly b.customer.phone
                document := { number := digitsOnly b.customer.cpf, type := "cpf" } }
            shipping :=
              { name := b.customer.name
                street := addr.street
                number := addr.number
                complement := jsOrS (some addr.complement) ""
                neighborhood := addr.neighborhood
                city := addr.city
                state := addr.state
                zipCode := jsOrS (some (digitsOnly addr.cep)) "" }
            pixExpiresInDays := 1
            postbackUrl := jsOrS appUrl "https://seu-dominio.com" ++ "/api/webhook/blackcat"
            externalRef := orderId
            metadataOrderId := orderId
            metadataTrackingParams := b.trackingParams }
        if gatewayResp.success = false then
          ⟨500, .err (jsOrS gatewayResp.message "Erro ao criar pagamento PIX"),
            some req, none, store1⟩
        else
          match gatewayResp.data with
          | none =>
            ⟨500, .err (jsOrS gatewayResp.message "Erro ao criar pagamento PIX"),
              some req, none, store1⟩
          | some d =>
            let utmfyOrder : UtmfyOrderRequest :=
              { orderId := orderId
                platform := "papelaria-site"
                paymentMethod := "pix"
                status := "waiting_payment"
                createdAt := jsOrS (some (fmtDate now)) ""
                approvedDate := none
                refundedAt := none
                customer :=
                  { name := b.customer.name
                    email := b.customer.email
                    phone := strOrNone (digitsOnly b.customer.phone)
                    document := strOrNone (digitsOnly b.customer.cpf)
                    country := "BR" }
                products :=
                  b.items.map (fun it =>
                    { id := jsOrS (some it.id) "product"
                      name := it.name
                      planId := none
                      planName := none
                      quantity := it.quantity
                      priceInCents := toCents it.price })
                trackingParameters := readTrackingFieldsOpt b.trackingParams
                commission :=
                  { totalPriceInCents := amountInCents
                    gatewayFeeInCents := jsOrI d.fees 0
                    userCommissionInCents := jsOrI d.netAmount amountInCents
                    currency := "BRL" } }
            let okBody : CheckoutRespBody :=
              .ok orderId d.transactionId (jsOrS (some d.copyPaste) d.qrCode)
                d.qrCodeBase64 d.expiresAt
            if utmfyThrows then
              -- the `catch` swallows the throw; the response is unchanged
              ⟨200, okBody, some req, some utmfyOrder, store1⟩
            else
              ⟨200, okBody, some req, some utmfyOrder, store1⟩

/-! ## Concrete inputs used by the witnesses -/

/-- A `JSON.parse` oracle that fails on every string. -/
def parseNone : String → Option Json := fun _ => none

/-- An identity date-formatting oracle. -/
def fmtId : String → String := fun s => s

/-- A concrete `transaction.paid` webhook envelope. -/
def wPaid : BlackCatWebhookPayload :=
  { event := "transaction.paid", transactionId := some "tx-1"
    externalReference := some "PED-1-AB", amount := some 1990
    customer := none, paidAt := some "2026-01-01T00:00:00"
    fees := some 35, netAmount := some 1955, metadata := none }

/-- A Correlation Store holding a record for `"PED-1-AB"`. -/
def wStore1 : UtmStore := saveUtmParams "PED-1-AB" defaultTrackingParams []

/-- A concrete `transaction.paid` envelope whose order id has no store
entry. -/
def wPaidMiss : BlackCatWebhookPayload :=
  { event := "transaction.paid", transactionId := some "tx-2"
    externalReference := some "PED-2-CD", amount := some 500
    customer := none, paidAt := none
    fees := none, netAmount := none, metadata := none }

/-- A concrete valid checkout body. -/
def cBodyOk : CheckoutBody :=
  { customer := { name := "Ana", email := "ana@example.com"
                  cpf := "39053344705", phone := "11999998888" }
    address := some { street := "Rua A", number := "10", complement := ""
                      neighborhood := "Centro", city := "Sao Paulo"
                      state := "SP", cep := "01000-000" }
    items := [{ id := "p1", name := "Caderno", price := (199 : ℚ) / 10, quantity := 1 }]
    total := (199 : ℚ) / 10
    shipping := none
    trackingParams := none }

/-- `cBodyOk` without the `address` block. -/
def cBodyNoAddr : CheckoutBody := { cBodyOk with address := none }

/-- An invalid checkout body (empty customer name). -/
def cBodyBad : CheckoutBody :=
  { cBodyOk with
    customer := { name := "", email := "ana@example.com"
                  cpf := "39053344705", phone := "11999998888" } }

/-- A failed gateway response carrying a gateway message. -/
def cRespFail : BlackCatSaleResponse :=
  { success := false, data := none, message := some "Saldo insuficiente" }

/-- The data block of a successful gateway response. -/
def cSaleOk : BlackCatSaleData :=
  { transactionId := "tx-77", fees := some 35, netAmount := some 1955
    qrCode := "qr-raw", qrCodeBase64 := "qr-b64", copyPaste := "qr-copy"
    expiresAt := "2026-01-02" }

/-- A successful gateway response. -/
def cRespOk : BlackCatSaleResponse :=
  { success := true, data := some cSaleOk, message := none }

/-! ## Claims about unit conversion, status mapping, order-id shape -/

/-- C5: `toCents(x) = round(x * 100)` and `fromCents(c) = c / 100`; the two
are inverse on amounts that are exact multiples of `0.01` (`x = k / 100`),
and in particular `toCents 19.9 = 1990`. -/
theorem toCents_fromCents_spec :
    (∀ x : ℚ, toCents x = ⌊x * 100 + 1 / 2⌋) ∧
    (∀ c : ℚ, fromCents c = c / 100) ∧
    (∀ k : ℤ, toCents ((k : ℚ) / 100) = k) ∧
    (∀ k : ℤ, fromCents ((toCents ((k : ℚ) / 100) : ℤ) : ℚ) = (k : ℚ) / 100) ∧
    toCents (19.9 : ℚ) = 1990 := by
  have hk : ∀ k : ℤ, toCents ((k : ℚ) / 100) = k := by
    intro k
    unfold toCents
    rw [div_mul_cancel₀ _ (by norm_num : (100 : ℚ) ≠ 0), Int.floor_int_add]
    norm_num
  refine ⟨fun x => rfl, fun c => rfl, hk, fun k => ?_, by norm_num [toCents]⟩
  rw [hk k]
  rfl

/-- C8: `mapBlackCatStatus` is total (it is a total Lean function by
construction) and decides only on the uppercased input: `PENDING`, `PAID`,
`CANCELLED` and `REFUNDED` map to their lowercase counterparts, everything
else to `"pending"`; concrete cases as claimed. -/
theorem mapBlackCatStatus_total_case_insensitive :
    (∀ s : String,
      (upperStr s = "PENDING" → mapBlackCatStatus s = "pending") ∧
      (upperStr s = "PAID" → mapBlackCatStatus s = "paid") ∧
      (upperStr s = "CANCELLED" → mapBlackCatStatus s = "cancelled") ∧
      (upperStr s = "REFUNDED" → mapBlackCatStatus s = "refunded") ∧
      (upperStr s ≠ "PENDING" → upperStr s ≠ "PAID" → upperStr s ≠ "CANCELLED" →
        upperStr s ≠ "REFUNDED" → mapBlackCatStatus s = "pending")) ∧
    mapBlackCatStatus "paid" = "paid" ∧
    mapBlackCatStatus "PAID" = "paid" ∧
    mapBlackCatStatus "Paid" = "paid" ∧
    mapBlackCatStatus "bogus" = "pending" := by
  refine ⟨fun s => ⟨fun h => by simp [mapBlackCatStatus, h],
    fun h => by simp [mapBlackCatStatus, h],
    fun h => by simp [mapBlackCatStatus, h],
    fun h => by simp [mapBlackCatStatus, h],
    fun h1 h2 h3 h4 => by simp [mapBlackCatStatus, h1, h2, h3, h4]⟩,
    by decide, by decide, by decide, by decide⟩

/-- Witness for C8: the case-insensitivity clauses applied at the concrete
input `"Cancelled"`. -/
theorem mapBlackCatStatus_total_case_insensitive_witness :
    upperStr "Cancelled" = "CANCELLED" ∧ mapBlackCatStatus "Cancelled" = "cancelled" :=
  ⟨by decide,
    (mapBlackCatStatus_total_case_insensitive.1 "Cancelled").2.2.1 (by decide)⟩

/-- C9 counterexample: the random component does not always have exactly
four characters.  `Math.random()` can return `0.5`, whose base-36 rendering
is `"0.i"`; then `substring(2, 6)` keeps a single character and the
generated id is `"PED-0-I"` (at timestamp `0`), which cannot be decomposed
as the claimed prefix plus a four-character random part. -/
theorem generateOrderId_random_part_can_be_short :
    ¬ ∃ r : String, r.length = 4 ∧
      generateOrderId 0 "0.i" = "PED-" ++ upperStr (natToBase36 0) ++ "-" ++ r := by
  rintro ⟨r, hlen, heq⟩
  have h1 : generateOrderId 0 "0.i" = "PED-0-I" := by decide
  have h2 : ("PED-" ++ upperStr (natToBase36 0) ++ "-" : String) = "PED-0-" := by decide
  rw [h1, h2] at heq
  have hl := congrArg String.length heq
  have h7 : ("PED-0-I" : String).length = 7 := rfl
  have h6 : ("PED-0-" : String).length = 6 := rfl
  rw [String.length_append, h7, h6, hlen] at hl
  omega

/-- C9 (amended): for every timestamp and random rendering, the generated
order id is `"PED-"`, the uppercased base-36 timestamp, a hyphen, and *at
most* four characters taken from the random component's base-36 rendering
(exactly four whenever that rendering supplies at least four fractional
digits). -/
theorem generateOrderId_shape (ts : Nat) (randomStr : String) :
    ∃ r : String, r.length ≤ 4 ∧
      generateOrderId ts randomStr = "PED-" ++ upperStr (natToBase36 ts) ++ "-" ++ r := by
  refine ⟨upperStr (jsSubstring randomStr 2 6), ?_, rfl⟩
  show (((randomStr.data.drop 2).take (6 - 2)).map Char.toUpper).length ≤ 4
  rw [List.length_map, List.length_take]
  exact min_le_left _ _

/-! ## Claims about the webhook receiver -/

/-- C1: every request whose body parses as an event envelope is answered
`200 { success: true, message }`, whatever the event type; a `500 { error }`
is returned exactly when the body itself fails to parse. -/
theorem webhook_always_acknowledges (parse : String → Option Json)
    (fmtDate : String → String) (now : String) (u : Bool) (store : UtmStore) :
    (∀ p : BlackCatWebhookPayload,
      (webhookPOST parse fmtDate now (some p) u store).status = 200 ∧
      ∃ m, (webhookPOST parse fmtDate now (some p) u store).body = WebhookBody.ok m) ∧
    ((webhookPOST parse fmtDate now none u store).status = 500 ∧
      ∃ e, (webhookPOST parse fmtDate now none u store).body = WebhookBody.err e) := by
  constructor
  · intro p
    simp only [webhookPOST]
    split_ifs <;> exact ⟨rfl, _, rfl⟩
  · exact ⟨rfl, _, rfl⟩

/-- `save` then `delete` semantics: after `deleteUtmParams k`, a `get` on
`k` misses. -/
theorem getUtmParams_after_delete (k : String) (store : UtmStore) :
    getUtmParams k (deleteUtmParams k store) = none := by
  unfold getUtmParams deleteUtmParams
  rw [Option.map_eq_none', List.find?_eq_none]
  intro x hx
  rw [List.mem_filter, decide_eq_true_eq] at hx
  simp only [beq_iff_eq]
  exact hx.2

/-- `x || ""` is the identity on strings. -/
theorem jsOrS_some_empty (x : String) : jsOrS (some x) "" = x := by
  simp only [jsOrS]
  split_ifs with h
  · exact h.symm
  · rfl

/-- C6: on a `transaction.paid` event whose attribution send succeeds, the
handler submits a `paid`-status event whose `approvedDate` is the formatted
`paidAt` (or the formatted current time when `paidAt` is absent), answers
200, and deletes the resolved order id from the Correlation Store, so a
subsequent `get` misses. -/
theorem webhook_paid_approvedDate_and_cleanup (parse : String → Option Json)
    (fmtDate : String → String) (now : String) (p : BlackCatWebhookPayload)
    (store : UtmStore) (hev : p.event = "transaction.paid") :
    ∃ e, (webhookPOST parse fmtDate now (some p) false store).utmfyEvent = some e ∧
      e.status = "paid" ∧
      (∀ s, p.paidAt = some s → s ≠ "" → e.approvedDate = some (fmtDate s)) ∧
      (p.paidAt = none → e.approvedDate = some (fmtDate now)) ∧
      (webhookPOST parse fmtDate now (some p) false store).status = 200 ∧
      getUtmParams (jsOrS p.externalReference (jsOrS p.transactionId ""))
        (webhookPOST parse fmtDate now (some p) false store).storeAfter = none := by
  have hne : ¬ p.event = "transaction.created" := by rw [hev]; decide
  simp only [webhookPOST, if_neg hne, if_pos hev, if_neg (Bool.false_ne_true)]
  refine ⟨_, rfl, rfl, ?_, ?_, trivial, getUtmParams_after_delete _ _⟩
  · intro s hs hsne
    simp only [hs, jsOrS, if_neg hsne]
    split_ifs with h
    · rw [h]
    · rfl
  · intro hnone
    simp only [hnone, jsOrS]
    split_ifs with h
    · rw [h]
    · rfl

/-- Metadata extraction: absent metadata yields the all-null default. -/
theorem extractTracking_none (parse : String → Option Json) :
    extractTrackingParamsFromMetadata parse none = defaultTrackingParams := rfl

/-- Metadata extraction: a failing `JSON.parse` (caught exception) yields
the all-null default. -/
theorem extractTracking_parse_fail (parse : String → Option Json) (s : String)
    (h : parse s = none) :
    extractTrackingParamsFromMetadata parse (some s) = defaultTrackingParams := by
  simp only [extractTrackingParamsFromMetadata]
  split_ifs with h0
  · rfl
  · rw [h]

/-- Metadata extraction, nested shape: when the parsed value carries a
truthy `trackingParams` field, the fields are read off that block. -/
theorem extractTracking_nested (parse : String → Option Json) (s : String)
    (j blk : Json) (hs : s ≠ "") (hp : parse s = some j)
    (hf : j.getField "trackingParams" = some blk) (ht : blk.truthy = true) :
    extractTrackingParamsFromMetadata parse (some s) = readTrackingFields blk := by
  simp only [extractTrackingParamsFromMetadata, if_neg hs, hp]
  cases j with
  | null => exact absurd hf (by simp [Json.getField])
  | bool b => exact absurd hf (by simp [Json.getField])
  | num n => exact absurd hf (by simp [Json.getField])
  | str t => exact absurd hf (by simp [Json.getField])
  | arr xs => exact absurd hf (by simp [Json.getField])
  | obj fields => simp only [hf, if_pos ht]

/-- Metadata extraction, flat shape: when the parsed value is not `null`
and has no truthy `trackingParams` field, the fields are read off the
parsed value itself. -/
theorem extractTracking_flat (parse : String → Option Json) (s : String) (j : Json)
    (hs : s ≠ "") (hp : parse s = some j) (hnn : j ≠ Json.null)
    (hfl : jsOrNull (j.getField "trackingParams") = none) :
    extractTrackingParamsFromMetadata parse (some s) = readTrackingFields j := by
  simp only [extractTrackingParamsFromMetadata, if_neg hs, hp]
  cases j with
  | null => exact absurd rfl hnn
  | bool b => simp [Json.getField]
  | num n => simp [Json.getField]
  | str t => simp [Json.getField]
  | arr xs => simp [Json.getField]
  | obj fields =>
    rcases hf : (Json.obj fields).getField "trackingParams" with _ | v
    · simp only [hf]
    · have hv : ¬ (v.truthy = true) := by
        intro hvt
        rw [hf] at hfl
        simp only [jsOrNull, if_pos hvt] at hfl
        exact Option.noConfusion hfl
      simp only [hf, if_neg hv]

/-- When the Correlation Store lookup misses, `getTrackingParams` falls back
to metadata extraction. -/
theorem getTrackingParams_of_miss (parse : String → Option Json) (oid : String)
    (md : Option String) (store : UtmStore)
    (h : getUtmParams oid store = none) :
    getTrackingParams parse oid md store =
      extractTrackingParamsFromMetadata parse md := by
  simp only [getTrackingParams, h]

/-- C4: when the resolved order id has no Correlation Store entry, the
attribution event of a `transaction.paid`/`transaction.failed` webhook
carries exactly the tracking block extracted from the event's metadata
string; that extraction uses the metadata verbatim through the nested
`trackingParams` key when present and truthy, through the flat shape
otherwise, and degrades to the all-null default block when the metadata is
absent or fails to parse. -/
theorem webhook_store_miss_metadata_fallback (parse : String → Option Json)
    (fmtDate : String → String) (now : String) (u : Bool)
    (p : BlackCatWebhookPayload) (store : UtmStore)
    (hmiss : getUtmParams (jsOrS p.externalReference (jsOrS p.transactionId "")) store = none)
    (hev : p.event = "transaction.paid" ∨ p.event = "transaction.failed") :
    (∃ e, (webhookPOST parse fmtDate now (some p) u store).utmfyEvent = some e ∧
      e.trackingParameters = extractTrackingParamsFromMetadata parse p.metadata) ∧
    (p.metadata = none →
      extractTrackingParamsFromMetadata parse p.metadata = defaultTrackingParams) ∧
    (∀ s, p.metadata = some s → parse s = none →
      extractTrackingParamsFromMetadata parse p.metadata = defaultTrackingParams) ∧
    (∀ s j blk, p.metadata = some s → s ≠ "" → parse s = some j →
      j.getField "trackingParams" = some blk → blk.truthy = true →
      extractTrackingParamsFromMetadata parse p.metadata = readTrackingFields blk) ∧
    (∀ s j, p.metadata = some s → s ≠ "" → parse s = some j → j ≠ Json.null →
      jsOrNull (j.getField "trackingParams") = none →
      extractTrackingParamsFromMetadata parse p.metadata = readTrackingFields j) := by
  have hTP : getTrackingParams parse
      (jsOrS p.externalReference (jsOrS p.transactionId "")) p.metadata store =
      extractTrackingParamsFromMetadata parse p.metadata :=
    getTrackingParams_of_miss parse _ p.metadata store hmiss
  refine ⟨?_, ?_, ?_, ?_, ?_⟩
  · rcases hev with hev | hev
    · have hne : ¬ p.event = "transaction.created" := by rw [hev]; decide
      cases u
      · simp only [webhookPOST, if_neg hne, if_pos hev, if_neg (Bool.false_ne_true)]
        exact ⟨_, rfl, hTP⟩
      · simp only [webhookPOST, if_neg hne, if_pos hev,
          if_pos (rfl : (true : Bool) = true)]
        exact ⟨_, rfl, hTP⟩
    · have hne1 : ¬ p.event = "transaction.created" := by rw [hev]; decide
      have hne2 : ¬ p.event = "transaction.paid" := by rw [hev]; decide
      cases u
      · simp only [webhookPOST, if_neg hne1, if_neg hne2, if_pos hev,
          if_neg (Bool.false_ne_true)]
        exact ⟨_, rfl, hTP⟩
      · simp only [webhookPOST, if_neg hne1, if_neg hne2, if_pos hev,
          if_pos (rfl : (true : Bool) = true)]
        exact ⟨_, rfl, hTP⟩
  · intro h
    rw [h]
    exact extractTracking_none parse
  · intro s hmd hps
    rw [hmd]
    exact extractTracking_parse_fail parse s hps
  · intro s j blk hmd hsne hps hf ht
    rw [hmd]
    exact extractTracking_nested parse s j blk hsne hps hf ht
  · intro s j hmd hsne hps hnn hfl
    rw [hmd]
    exact extractTracking_flat parse s j hsne hps hnn hfl

/-! ## Claims about the checkout orchestrator -/

/-- C3: any request failing the customer/items/total validations is
rejected with `400` and neither the gateway nor the attribution client is
called (and the Correlation Store is untouched). -/
theorem checkout_invalid_input_rejected (fmtDate : String → String)
    (now : String) (appUrl : Option String) (b : CheckoutBody)
    (orderId : String) (gatewayResp : BlackCatSaleResponse) (u : Bool)
    (store : UtmStore)
    (hbad : b.customer.name = "" ∨ b.customer.email = "" ∨ b.customer.cpf = "" ∨
      b.customer.phone = "" ∨ b.items = [] ∨ b.total ≤ 0) :
    (checkoutPOST fmtDate now appUrl (some b) orderId gatewayResp u store).status = 400 ∧
    (checkoutPOST fmtDate now appUrl (some b) orderId gatewayResp u store).gatewayRequest = none ∧
    (checkoutPOST fmtDate now appUrl (some b) orderId gatewayResp u store).utmfyEvent = none ∧
    (checkoutPOST fmtDate now appUrl (some b) orderId gatewayResp u store).storeAfter = store := by
  by_cases h1 : b.customer.name = "" ∨ b.customer.email = "" ∨ b.customer.cpf = "" ∨
      b.customer.phone = ""
  · simp only [checkoutPOST, if_pos h1]
    refine ⟨?_, ?_, ?_, ?_⟩ <;> trivial
  · by_cases h2 : b.items.isEmpty
    · simp only [checkoutPOST, if_neg h1, if_pos h2]
      refine ⟨?_, ?_, ?_, ?_⟩ <;> trivial
    · by_cases h3 : b.total ≤ 0
      · simp only [checkoutPOST, if_neg h1, if_neg h2, if_pos h3]
        refine ⟨?_, ?_, ?_, ?_⟩ <;> trivial
      · exfalso
        rw [List.isEmpty_iff] at h2
        tauto

/-- Error-message selection of a failed create-sale: either the gateway's
own non-empty message is forwarded, or the generic message is used. -/
theorem checkout_error_message_cases (msg : Option String) :
    (∃ m, msg = some m ∧ m ≠ "" ∧
      CheckoutRespBody.err (jsOrS msg "Erro ao criar pagamento PIX") =
        CheckoutRespBody.err m) ∨
    CheckoutRespBody.err (jsOrS msg "Erro ao criar pagamento PIX") =
      CheckoutRespBody.err "Erro ao criar pagamento PIX" := by
  rcases msg with _ | m
  · right
    rfl
  · by_cases hm : m = ""
    · right
      simp [jsOrS, hm]
    · left
      exact ⟨m, rfl, hm, by simp [jsOrS, hm]⟩

/-- C2: a validated request whose gateway create-charge reports failure
(`success: false` or missing `data`) is answered `500` carrying the
gateway's message (the generic message when none is present), and the
attribution client is never invoked. -/
theorem checkout_gateway_failure_no_attribution (fmtDate : String → String)
    (now : String) (appUrl : Option String) (b : CheckoutBody)
    (orderId : String) (resp : BlackCatSaleResponse) (u : Bool)
    (store : UtmStore)
    (hname : b.customer.name ≠ "") (hemail : b.customer.email ≠ "")
    (hcpf : b.customer.cpf ≠ "") (hphone : b.customer.phone ≠ "")
    (hitems : b.items ≠ []) (htotal : 0 < b.total)
    (addr : CheckoutAddress) (haddr : b.address = some addr)
    (hfail : resp.success = false ∨ resp.data = none) :
    (checkoutPOST fmtDate now appUrl (some b) orderId resp u store).status = 500 ∧
    (checkoutPOST fmtDate now appUrl (some b) orderId resp u store).utmfyEvent = none ∧
    ((∃ m, resp.message = some m ∧ m ≠ "" ∧
      (checkoutPOST fmtDate now appUrl (some b) orderId resp u store).body =
        CheckoutRespBody.err m) ∨
      (checkoutPOST fmtDate now appUrl (some b) orderId resp u store).body =
        CheckoutRespBody.err "Erro ao criar pagamento PIX") := by
  have h1 : ¬ (b.customer.name = "" ∨ b.customer.email = "" ∨ b.customer.cpf = "" ∨
      b.customer.phone = "") := by simp [hname, hemail, hcpf, hphone]
  have h2 : ¬ (b.items.isEmpty = true) := by
    simp [List.isEmpty_iff, hitems]
  have h3 : ¬ (b.total ≤ 0) := not_le.mpr htotal
  by_cases hs : resp.success = false
  · simp only [checkoutPOST, if_neg h1, if_neg h2, if_neg h3, haddr, if_pos hs]
    refine ⟨by trivial, by trivial, ?_⟩
    simpa using checkout_error_message_cases resp.message
  · have hd : resp.data = none := by tauto
    simp only [checkoutPOST, if_neg h1, if_neg h2, if_neg h3, haddr, if_neg hs, hd]
    refine ⟨by trivial, by trivial, ?_⟩
    simpa using checkout_error_message_cases resp.message

/-- C7: when the gateway reports success, the response is `200` with the
order id, transaction id and PIX artifacts, and it is identical whether the
subsequent attribution send throws or not (the failure is caught). -/
theorem checkout_attribution_isolated (fmtDate : String → String)
    (now : String) (appUrl : Option String) (b : CheckoutBody)
    (orderId : String) (resp : BlackCatSaleResponse) (store : UtmStore)
    (hname : b.customer.name ≠ "") (hemail : b.customer.email ≠ "")
    (hcpf : b.customer.cpf ≠ "") (hphone : b.customer.phone ≠ "")
    (hitems : b.items ≠ []) (htotal : 0 < b.total)
    (addr : CheckoutAddress) (haddr : b.address = some addr)
    (d : BlackCatSaleData) (hsucc : resp.success = true)
    (hdata : resp.data = some d) :
    checkoutPOST fmtDate now appUrl (some b) orderId resp true store =
      checkoutPOST fmtDate now appUrl (some b) orderId resp false store ∧
    (checkoutPOST fmtDate now appUrl (some b) orderId resp true store).status = 200 ∧
    (checkoutPOST fmtDate now appUrl (some b) orderId resp true store).body =
      CheckoutRespBody.ok orderId d.transactionId
        (jsOrS (some d.copyPaste) d.qrCode) d.qrCodeBase64 d.expiresAt := by
  have h1 : ¬ (b.customer.name = "" ∨ b.customer.email = "" ∨ b.customer.cpf = "" ∨
      b.customer.phone = "") := by simp [hname, hemail, hcpf, hphone]
  have h2 : ¬ (b.items.isEmpty = true) := by
    simp [List.isEmpty_iff, hitems]
  have h3 : ¬ (b.total ≤ 0) := not_le.mpr htotal
  have hs : ¬ (resp.success = false) := by simp [hsucc]
  simp only [checkoutPOST, if_neg h1, if_neg h2, if_neg h3, haddr, if_neg hs, hdata,
    if_neg (Bool.false_ne_true), if_pos (rfl : (true : Bool) = true)]
  refine ⟨?_, ?_, ?_⟩ <;> trivial

/-- C10: a request passing the customer/items/total validations but missing
the `address` block is answered `500` with the generic internal-error
message, and the gateway is never called: the failure happens while
building the shipping block, before the outbound call. -/
theorem checkout_missing_address_500 (fmtDate : String → String)
    (now : String) (appUrl : Option String) (b : CheckoutBody)
    (orderId : String) (gatewayResp : BlackCatSaleResponse) (u : Bool)
    (store : UtmStore)
    (hname : b.customer.name ≠ "") (hemail : b.customer.email ≠ "")
    (hcpf : b.customer.cpf ≠ "") (hphone : b.customer.phone ≠ "")
    (hitems : b.items ≠ []) (htotal : 0 < b.total)
    (haddr : b.address = none) :
    (checkoutPOST fmtDate now appUrl (some b) orderId gatewayResp u store).status = 500 ∧
    (checkoutPOST fmtDate now appUrl (some b) orderId gatewayResp u store).body =
      CheckoutRespBody.err "Erro interno ao processar pagamento" ∧
    (checkoutPOST fmtDate now appUrl (some b) orderId gatewayResp u store).gatewayRequest = none ∧
    (checkoutPOST fmtDate now appUrl (some b) orderId gatewayResp u store).utmfyEvent = none := by
  have h1 : ¬ (b.customer.name = "" ∨ b.customer.email = "" ∨ b.customer.cpf = "" ∨
      b.customer.phone = "") := by simp [hname, hemail, hcpf, hphone]
  have h2 : ¬ (b.items.isEmpty = true) := by
    simp [List.isEmpty_iff, hitems]
  have h3 : ¬ (b.total ≤ 0) := not_le.mpr htotal
  simp only [checkoutPOST, if_neg h1, if_neg h2, if_neg h3, haddr]
  refine ⟨?_, ?_, ?_, ?_⟩ <;> trivial

/-! ## Witnesses for the theorems with hypotheses -/

/-- Witness for C6: the paid-event theorem at a concrete envelope and a
store holding the order's record. -/
theorem webhook_paid_approvedDate_and_cleanup_witness :
    wPaid.event = "transaction.paid" ∧
    (∃ e, (webhookPOST parseNone fmtId "T0" (some wPaid) false wStore1).utmfyEvent = some e ∧
      e.status = "paid" ∧
      (∀ s, wPaid.paidAt = some s → s ≠ "" → e.approvedDate = some (fmtId s)) ∧
      (wPaid.paidAt = none → e.approvedDate = some (fmtId "T0")) ∧
      (webhookPOST parseNone fmtId "T0" (some wPaid) false wStore1).status = 200 ∧
      getUtmParams (jsOrS wPaid.externalReference (jsOrS wPaid.transactionId ""))
        (webhookPOST parseNone fmtId "T0" (some wPaid) false wStore1).storeAfter = none) :=
  ⟨rfl, webhook_paid_approvedDate_and_cleanup parseNone fmtId "T0" wPaid wStore1 rfl⟩

/-- Witness for C4: the store-miss theorem at a concrete paid envelope over
the empty store. -/
theorem webhook_store_miss_metadata_fallback_witness :
    getUtmParams (jsOrS wPaidMiss.externalReference (jsOrS wPaidMiss.transactionId ""))
      ([] : UtmStore) = none ∧
    ((∃ e, (webhookPOST parseNone fmtId "T0" (some wPaidMiss) false ([] : UtmStore)).utmfyEvent = some e ∧
        e.trackingParameters = extractTrackingParamsFromMetadata parseNone wPaidMiss.metadata) ∧
      (wPaidMiss.metadata = none →
        extractTrackingParamsFromMetadata parseNone wPaidMiss.metadata = defaultTrackingParams) ∧
      (∀ s, wPaidMiss.metadata = some s → parseNone s = none →
        extractTrackingParamsFromMetadata parseNone wPaidMiss.metadata = defaultTrackingParams) ∧
      (∀ s j blk, wPaidMiss.metadata = some s → s ≠ "" → parseNone s = some j →
        j.getField "trackingParams" = some blk → blk.truthy = true →
        extractTrackingParamsFromMetadata parseNone wPaidMiss.metadata = readTrackingFields blk) ∧
      (∀ s j, wPaidMiss.metadata = some s → s ≠ "" → parseNone s = some j → j ≠ Json.null →
        jsOrNull (j.getField "trackingParams") = none →
        extractTrackingParamsFromMetadata parseNone wPaidMiss.metadata = readTrackingFields j)) :=
  ⟨rfl, webhook_store_miss_metadata_fallback parseNone fmtId "T0" false wPaidMiss []
    rfl (Or.inl rfl)⟩

/-- Witness for C3: the validation theorem at a body with an empty customer
name. -/
theorem checkout_invalid_input_rejected_witness :
    cBodyBad.customer.name = "" ∧
    ((checkoutPOST fmtId "T0" none (some cBodyBad) "PED-1-AB" cRespOk false ([] : UtmStore)).status = 400 ∧
     (checkoutPOST fmtId "T0" none (some cBodyBad) "PED-1-AB" cRespOk false ([] : UtmStore)).gatewayRequest = none ∧
     (checkoutPOST fmtId "T0" none (some cBodyBad) "PED-1-AB" cRespOk false ([] : UtmStore)).utmfyEvent = none ∧
     (checkoutPOST fmtId "T0" none (some cBodyBad) "PED-1-AB" cRespOk false ([] : UtmStore)).storeAfter = ([] : UtmStore)) :=
  ⟨rfl, checkout_invalid_input_rejected fmtId "T0" none cBodyBad "PED-1-AB" cRespOk false []
    (Or.inl rfl)⟩

/-- Witness for C2: the gateway-failure theorem at a valid body and a
failed response carrying a message. -/
theorem checkout_gateway_failure_no_attribution_witness :
    cRespFail.success = false ∧
    ((checkoutPOST fmtId "T0" none (some cBodyOk) "PED-1-AB" cRespFail false ([] : UtmStore)).status = 500 ∧
     (checkoutPOST fmtId "T0" none (some cBodyOk) "PED-1-AB" cRespFail false ([] : UtmStore)).utmfyEvent = none ∧
     ((∃ m, cRespFail.message = some m ∧ m ≠ "" ∧
        (checkoutPOST fmtId "T0" none (some cBodyOk) "PED-1-AB" cRespFail false ([] : UtmStore)).body =
          CheckoutRespBody.err m) ∨
       (checkoutPOST fmtId "T0" none (some cBodyOk) "PED-1-AB" cRespFail false ([] : UtmStore)).body =
         CheckoutRespBody.err "Erro ao criar pagamento PIX")) :=
  ⟨rfl, checkout_gateway_failure_no_attribution fmtId "T0" none cBodyOk "PED-1-AB" cRespFail false []
    (by decide) (by decide) (by decide) (by decide)
    (by simp [cBodyOk]) (by norm_num [cBodyOk])
    _ rfl (Or.inl rfl)⟩

/-- Witness for C7: the isolation theorem at a valid body and a successful
gateway response. -/
theorem checkout_attribution_isolated_witness :
    cRespOk.success = true ∧ cRespOk.data = some cSaleOk ∧
    (checkoutPOST fmtId "T0" none (some cBodyOk) "PED-1-AB" cRespOk true ([] : UtmStore) =
      checkoutPOST fmtId "T0" none (some cBodyOk) "PED-1-AB" cRespOk false ([] : UtmStore) ∧
     (checkoutPOST fmtId "T0" none (some cBodyOk) "PED-1-AB" cRespOk true ([] : UtmStore)).status = 200 ∧
     (checkoutPOST fmtId "T0" none (some cBodyOk) "PED-1-AB" cRespOk true ([] : UtmStore)).body =
       CheckoutRespBody.ok "PED-1-AB" cSaleOk.transactionId
         (jsOrS (some cSaleOk.copyPaste) cSaleOk.qrCode) cSaleOk.qrCodeBase64 cSaleOk.expiresAt) :=
  ⟨rfl, rfl, checkout_attribution_isolated fmtId "T0" none cBodyOk "PED-1-AB" cRespOk []
    (by decide) (by decide) (by decide) (by decide)
    (by simp [cBodyOk]) (by norm_num [cBodyOk])
    _ rfl cSaleOk rfl rfl⟩

/-- Witness for C10: the missing-address theorem at an otherwise valid
body. -/
theorem checkout_missing_address_500_witness :
    cBodyNoAddr.address = none ∧
    ((checkoutPOST fmtId "T0" none (some cBodyNoAddr) "PED-1-AB" cRespOk false ([] : UtmStore)).status = 500 ∧
     (checkoutPOST fmtId "T0" none (some cBodyNoAddr) "PED-1-AB" cRespOk false ([] : UtmStore)).body =
       CheckoutRespBody.err "Erro interno ao processar pagamento" ∧
     (checkoutPOST fmtId "T0" none (some cBodyNoAddr) "PED-1-AB" cRespOk false ([] : UtmStore)).gatewayRequest = none ∧
     (checkoutPOST fmtId "T0" none (some cBodyNoAddr) "PED-1-AB" cRespOk false ([] : UtmStore)).utmfyEvent = none) :=
  ⟨rfl, checkout_missing_address_500 fmtId "T0" none cBodyNoAddr "PED-1-AB" cRespOk false []
    (by decide) (by decide) (by decide) (by decide)
    (by simp [cBodyNoAddr, cBodyOk]) (by norm_num [cBodyNoAddr, cBodyOk]) rfl⟩
